import Mathlib

/-!
Verification of the KBS sports-facility booking bot (`kbs_booker_bot.py`).

The development shallowly embeds the pure data flow of the bot:

* `parseTimeHMS` / `parseDateDMY` model `datetime.strptime` with the
  `"%H:%M:%S"` and `"%d/%m/%Y"` formats (restricted to ASCII digits and no
  space padding, which is all the program ever feeds them);
* `bookSlotHours`, `bookSlotStartHour`, `bookSlotHourlyRate`,
  `bookSlotTotalPrice` model the price computation in `KBSBooker.book_slot`;
* `get_single_day_target` models the slot-and-day-name part of the
  module-level `get_single_day_target` (the returned date string depends on
  the wall clock and is omitted);
* `check_slot_available` models the availability classification in
  `KBSBooker.check_slot` (Python `.strip().lower()` restricted to ASCII);
* `pollStep` / `pollLoop` / `runModel` model the control flow of
  `KBSBooker.run` from step 2 onward, with the network abstracted into
  `Oracles` (results of `check.php`, of the booking submission, of the
  booking-id extraction, of the confirmation call, and of the re-fetched
  facility list) and the passage of time idealised as the `time.sleep`
  calls alone; each run is reported as an `Outcome` plus a trace of
  `Event`s.
-/

namespace KBS

/-! ## Python-flavoured helpers -/

/-- Python truthiness of an optional integer (`if config.get(key):`):
`None` and `0` are falsy. -/
def pyTruthyInt : Option Int → Bool
  | some v => v != 0
  | none => false

/-- Python truthiness of an optional string (`if value:`): `None` and the
empty string are falsy. -/
def pyTruthyStr : Option String → Bool
  | some s => s != ""
  | none => false

/-- Python `x or default` for an optional string `x`. -/
def pyOrStr (o : Option String) (default : String) : String :=
  if pyTruthyStr o then o.getD "" else default

/-- Python list indexing `l[i]` (negative indices count from the end;
out of range is `none`, i.e. an `IndexError`). -/
def pyGet {α : Type} (l : List α) (i : Int) : Option α :=
  if 0 ≤ i then l.get? i.toNat
  else if (-i) ≤ (l.length : Int) then l.get? (l.length - (-i).toNat) else none

/-- The ASCII whitespace removed by Python `str.strip()`. -/
def pyIsSpace (c : Char) : Bool :=
  c = ' ' || c = '\t' || c = '\n' || c = '\r' || c = '\x0b' || c = '\x0c'

/-- Python `str.strip()` (ASCII whitespace). -/
def pyStrip (s : String) : String :=
  ⟨((s.data.dropWhile pyIsSpace).reverse.dropWhile pyIsSpace).reverse⟩

/-- Python `str.lower()` (ASCII letters). -/
def pyLower (s : String) : String :=
  ⟨s.data.map Char.toLower⟩

/-- Does `text` start with `pat`? -/
def startsWithList : List Char → List Char → Bool
  | [], _ => true
  | _ :: _, [] => false
  | p :: ps, c :: cs => (p = c) && startsWithList ps cs

/-- Python substring containment `pat in text`. -/
def containsSub (pat : List Char) : List Char → Bool
  | [] => startsWithList pat []
  | c :: cs => startsWithList pat (c :: cs) || containsSub pat cs

/-- Split a character list at every occurrence of `sep`
(Python `str.split(sep)` for a one-character separator). -/
def splitOnChar (sep : Char) : List Char → List (List Char)
  | [] => [[]]
  | c :: cs =>
    match splitOnChar sep cs with
    | [] => if c = sep then [[], []] else [[c]]
    | x :: xs => if c = sep then [] :: x :: xs else (c :: x) :: xs

/-- Numeric value of a list of ASCII digits. -/
def digitsToNat (l : List Char) : Nat :=
  l.foldl (fun n c => n * 10 + (c.toNat - 48)) 0

/-- A one-or-two-ASCII-digit field (the `\d{1,2}`-shaped fields of
`strptime`). -/
def twoDigitVal? (l : List Char) : Option Nat :=
  if (l.length = 1 || l.length = 2) && l.all Char.isDigit then some (digitsToNat l)
  else none

/-- A four-ASCII-digit field (`strptime`'s `%Y`). -/
def fourDigitVal? (l : List Char) : Option Nat :=
  if l.length = 4 && l.all Char.isDigit then some (digitsToNat l) else none

/-! ## Time and date parsing (`datetime.strptime`) -/

/-- `datetime.strptime(s, "%H:%M:%S")`, as the triple (hour, minute,
second). `none` models the `ValueError` raised on any malformed string
(including the leap seconds 60-61, which the regex accepts but the
`datetime` constructor rejects). ASCII digits only. -/
def parseTimeHMS (s : String) : Option (Nat × Nat × Nat) :=
  match splitOnChar ':' s.data with
  | [a, b, c] =>
    match twoDigitVal? a, twoDigitVal? b, twoDigitVal? c with
    | some h, some m, some sec =>
      if h ≤ 23 && m ≤ 59 && sec ≤ 59 then some (h, m, sec) else none
    | _, _, _ => none
  | _ => none

/-- Seconds since midnight of a parsed `%H:%M:%S` time. -/
def timeSeconds (t : Nat × Nat × Nat) : Nat :=
  t.1 * 3600 + t.2.1 * 60 + t.2.2

/-- Gregorian leap year (as Python's `calendar`/`datetime`). -/
def isLeapYear (y : Nat) : Bool :=
  y % 4 = 0 && (y % 100 != 0 || y % 400 = 0)

/-- Days in a month (for `datetime`'s day-of-month validation). -/
def daysInMonth (m y : Nat) : Nat :=
  if m = 2 then (if isLeapYear y then 29 else 28)
  else if m = 4 || m = 6 || m = 9 || m = 11 then 30
  else 31

/-- `datetime.strptime(s, "%d/%m/%Y")`, as (day, month, year); `none`
models the `ValueError` on malformed or calendar-invalid input. ASCII
digits, no space padding. -/
def parseDateDMY (s : String) : Option (Nat × Nat × Nat) :=
  match splitOnChar '/' s.data with
  | [d, m, y] =>
    match twoDigitVal? d, twoDigitVal? m, fourDigitVal? y with
    | some dv, some mv, some yv =>
      if 1 ≤ dv && 1 ≤ mv && mv ≤ 12 && 1 ≤ yv && dv ≤ daysInMonth mv yv then
        some (dv, mv, yv)
      else none
    | _, _, _ => none
  | _ => none

/-! ## Price computation in `KBSBooker.book_slot` (lines 410-422) -/

/-- `hours` in `book_slot`: `int((end - start).seconds / 3600)` with a
`try/except` fallback to 1 when either `strptime` raises. `timedelta`
normalises a negative difference into `[0, 86400)`, hence the modulus. -/
def bookSlotHours (time_start time_end : String) : Nat :=
  match parseTimeHMS time_start, parseTimeHMS time_end with
  | some a, some b => ((timeSeconds b + 86400 - timeSeconds a) % 86400) / 3600
  | _, _ => 1

/-- `start_hour` in `book_slot`: `start.hour if 'start' in dir() else 19`
(the local `start` is bound exactly when the start string parsed). -/
def bookSlotStartHour (time_start : String) : Nat :=
  match parseTimeHMS time_start with
  | some a => a.1
  | none => 19

/-- `hourly_rate` in `book_slot`: `10 if start_hour < 19 else 15`. -/
def bookSlotHourlyRate (time_start : String) : Nat :=
  if bookSlotStartHour time_start < 19 then 10 else 15

/-- `total_price` in `book_slot`:
`config.get("total_price") or str(hours * hourly_rate)`. -/
def bookSlotTotalPrice (cfgTotal : Option String) (time_start time_end : String) : String :=
  pyOrStr cfgTotal (Nat.repr (bookSlotHours time_start time_end * bookSlotHourlyRate time_start))

/-! ## `get_single_day_target` (lines 66-97)

The date component of the source's return value depends on
`datetime.now()` and is omitted here; the modelled value is
(time_start, time_end, day_name). -/

/-- The `time_slots` dictionary of `get_single_day_target` (source lines
85-91; Monday, Wednesday and Thursday are 21:00-22:00 in the code even
though the inline comments still say 7-9pm). -/
def singleDayTimeSlots : List (String × String) :=
  [("21:00:00", "22:00:00"),
   ("19:00:00", "21:00:00"),
   ("21:00:00", "22:00:00"),
   ("21:00:00", "22:00:00"),
   ("20:00:00", "22:00:00")]

/-- The `day_names` list of `get_single_day_target`. -/
def singleDayNames : List String :=
  ["Monday", "Tuesday", "Wednesday", "Thursday", "Friday"]

/-- `get_single_day_target(day_offset)` restricted to its
(time_start, time_end, day_name) components; `Except.error` models the
`ValueError` raised for offsets outside `[0, 4]`. -/
def get_single_day_target (day_offset : Int) : Except String (String × String × String) :=
  if day_offset < 0 ∨ 4 < day_offset then
    Except.error ("day_offset must be 0-4, got " ++ toString day_offset)
  else
    let i := day_offset.toNat
    let slot := singleDayTimeSlots.getD i ("", "")
    Except.ok (slot.1, slot.2, singleDayNames.getD i "")

/-! ## Availability classification in `KBSBooker.check_slot` (lines 385-399) -/

/-- The `available` flag computed by `check_slot`:
`text in ["", "0", "ok", "available"] or "tiada" not in text` applied to
`resp.text.strip().lower()`. -/
def check_slot_available (respText : String) : Bool :=
  let text := pyLower (pyStrip respText)
  ((text == "") || (text == "0") || (text == "ok") || (text == "available"))
    || !(containsSub "tiada".data text.data)

/-- Modelled from the spec: the claim's reading of the classifier, in which
the fixed token list is a set of "taken" tokens — available unless the
stripped lower-cased text exactly matches one of the listed tokens or
contains the refusal substring "tiada". Stated only to be compared with
`check_slot_available`, which is translated from the code. -/
def specCheckSlotAvailable (respText : String) : Bool :=
  let text := pyLower (pyStrip respText)
  !(((text == "") || (text == "0") || (text == "ok") || (text == "available"))
      || containsSub "tiada".data text.data)

/-! ## The data model of `KBSBooker.run` -/

/-- One facility link scraped by `get_facility_list` (a
`tempahan_addcal.php?id=..&idf=..&neg=..` match). -/
structure Facility where
  venue_id : String
  facility_id_encoded : String
  neg : String
deriving Repr, DecidableEq

/-- The booking configuration dictionary built in `main` and mutated in
place by the fallback path of `run`. Optional fields model keys that
Python reads with `config.get`. -/
structure Config where
  venue_id : String
  facility_id_encoded : String
  facility_id : Int
  facility_index : Int
  tjk_id : Int
  retry_facility_index : Option Int
  retry_facility_id : Option String
  retry_facility_id_num : Option Int
  retry_tjk_id : Option Int
  date : String
  time_start : String
  time_end : String
  total_price : Option String
deriving Repr, DecidableEq

/-- Observable actions of one `run`, in order: availability checks
(`check_slot`), sleeps (with their duration in seconds), session-token
refreshes (`get_calendar_page` after a 40-minute wait), booking
submissions (`book_slot`, with the configuration in force at submission
time and the submission result), and confirmations (`confirm_booking`). -/
inductive Event where
  | check (idx : Nat) (available : Bool)
  | sleep (secs : Rat)
  | refreshToken
  | book (cfg : Config) (success : Bool)
  | confirm (ok : Bool)
deriving Repr, DecidableEq

/-- The environment's responses, indexed by occurrence: `avail k` is the
classification of the k-th `check.php` response, `bookSuccess k` /
`bookingId k` the outcome of the k-th `book_slot` call, `confirmSuccess k`
the outcome of the confirmation following the k-th `book_slot` call, and
`refetch k` the facility list returned by the k-th in-loop
`get_facility_list` call of the fallback path. -/
structure Oracles where
  avail : Nat → Bool
  bookSuccess : Nat → Bool
  bookingId : Nat → Option String
  confirmSuccess : Nat → Bool
  refetch : Nat → List Facility

/-- Result of one `run`: the returned dictionary (`success` with the court
label, or failure), a `crash` for an uncaught exception, or `fuelOut` when
the model's step budget is exhausted. -/
inductive Outcome where
  | success (court_name : String)
  | failure
  | crash
  | fuelOut
deriving Repr, DecidableEq

/-- Result of one iteration of the polling loop: either the run is over
(`done`), or the loop goes round again (`next`) with the updated
configuration, elapsed time and occurrence counters. Both carry the
events of the iteration. -/
inductive StepResult where
  | done (out : Outcome) (evs : List Event)
  | next (cfg : Config) (elapsed : Rat) (checkIdx bookIdx refetchIdx : Nat)
      (evs : List Event)
deriving Repr

/-- The court label chosen on primary-booking success (line 675):
`"Gelanggang Tenis 1" if config.get("facility_index", 0) == 0 else
"Gelanggang Tenis 2"` — note the raw, unclamped index. -/
def primaryCourtName (cfg : Config) : String :=
  if cfg.facility_index = 0 then "Gelanggang Tenis 1" else "Gelanggang Tenis 2"

/-- The court label chosen on fallback-booking success (line 740). -/
def retryCourtName (retry_index : Int) : String :=
  if retry_index = 0 then "Gelanggang Tenis 1" else "Gelanggang Tenis 2"

/-- The confirmation step after a successful `book_slot` (lines 678-692 and
742-764): run only when the extracted booking id is truthy. -/
def confirmEvents (orc : Oracles) (i : Nat) : List Event :=
  if pyTruthyStr (orc.bookingId i) then [Event.confirm (orc.confirmSuccess i)] else []

/-- The in-place config mutation when switching to the fallback facility
(lines 710-725): the encoded id always comes from the re-fetched list
entry; the numeric id and the tjk id are overwritten only when the
corresponding `retry_*` key is truthy. -/
def swapToRetry (cfg : Config) (newFac : Facility) : Config :=
  let c1 := { cfg with facility_id_encoded := newFac.facility_id_encoded }
  let c2 :=
    if pyTruthyInt c1.retry_facility_id_num then
      { c1 with facility_id := c1.retry_facility_id_num.getD 0 }
    else c1
  if pyTruthyInt c2.retry_tjk_id then
    { c2 with tjk_id := c2.retry_tjk_id.getD 0 }
  else c2

/-- The in-place config restoration after a failed fallback booking
(lines 781-783): the encoded id is reset from the re-fetched list at the
primary index, the numeric id and tjk id to their saved originals. -/
def restoreFromRetry (orig cur : Config) (primFac : Facility) : Config :=
  { cur with
      facility_id_encoded := primFac.facility_id_encoded,
      facility_id := orig.facility_id,
      tjk_id := orig.tjk_id }

/-- One iteration of the `while True` polling loop of `run`
(lines 628-802): timeout test, availability check, and on availability the
optional token refresh, the booking submission, and the single fallback
resubmission; otherwise or after a failed fallback, sleep and go round. -/
def pollStep (orc : Oracles) (timeout interval : Rat) (cfg : Config) (elapsed : Rat)
    (checkIdx bookIdx refetchIdx : Nat) : StepResult :=
  if timeout < elapsed then .done .failure []
  else if orc.avail checkIdx = true then
    match parseTimeHMS cfg.time_start, parseTimeHMS cfg.time_end, parseDateDMY cfg.date with
    | some _, some _, some _ =>
      let refreshEvs : List Event :=
        if (2400 : Rat) < elapsed then [Event.refreshToken] else []
      if orc.bookSuccess bookIdx = true then
        .done (Outcome.success (primaryCourtName cfg))
          (Event.check checkIdx true ::
            (refreshEvs ++ Event.book cfg true :: confirmEvents orc bookIdx))
      else
        match cfg.retry_facility_index with
        | none =>
          .next cfg (elapsed + interval) (checkIdx + 1) (bookIdx + 1) refetchIdx
            (Event.check checkIdx true ::
              (refreshEvs ++ Event.book cfg false :: [Event.sleep interval]))
        | some retry_index =>
          if 0 ≤ retry_index ∧ retry_index < ((orc.refetch refetchIdx).length : Int) then
            match pyGet (orc.refetch refetchIdx) retry_index with
            | none =>
              .done Outcome.crash
                (Event.check checkIdx true :: (refreshEvs ++ [Event.book cfg false]))
            | some newFac =>
              let cfg2 := swapToRetry cfg newFac
              if orc.bookSuccess (bookIdx + 1) = true then
                .done (Outcome.success (retryCourtName retry_index))
                  (Event.check checkIdx true ::
                    (refreshEvs ++ Event.book cfg false :: Event.sleep 1 ::
                      Event.book cfg2 true :: confirmEvents orc (bookIdx + 1)))
              else
                match pyGet (orc.refetch refetchIdx) cfg.facility_index with
                | none =>
                  .done Outcome.crash
                    (Event.check checkIdx true ::
                      (refreshEvs ++ Event.book cfg false ::
                        Event.sleep 1 :: [Event.book cfg2 false]))
                | some primFac =>
                  .next (restoreFromRetry cfg cfg2 primFac) (elapsed + 1 + interval)
                    (checkIdx + 1) (bookIdx + 2) (refetchIdx + 1)
                    (Event.check checkIdx true ::
                      (refreshEvs ++ Event.book cfg false :: Event.sleep 1 ::
                        Event.book cfg2 false :: [Event.sleep interval]))
          else
            .next cfg (elapsed + interval) (checkIdx + 1) (bookIdx + 1) (refetchIdx + 1)
              (Event.check checkIdx true ::
                (refreshEvs ++ Event.book cfg false :: [Event.sleep interval]))
    | _, _, _ => .done Outcome.crash [Event.check checkIdx true]
  else
    .next cfg (elapsed + interval) (checkIdx + 1) bookIdx refetchIdx
      [Event.check checkIdx false, Event.sleep interval]

/-- The polling loop of `run`, iterating `pollStep` with a fuel bound and
collecting the event trace. -/
def pollLoop (orc : Oracles) (timeout interval : Rat) :
    Nat → Config → Rat → Nat → Nat → Nat → Outcome × List Event
  | 0, _, _, _, _, _ => (.fuelOut, [])
  | fuel + 1, cfg, elapsed, checkIdx, bookIdx, refetchIdx =>
    match pollStep orc timeout interval cfg elapsed checkIdx bookIdx refetchIdx with
    | .done out evs => (out, evs)
    | .next cfg2 e2 c2 b2 r2 evs =>
      let rest := pollLoop orc timeout interval fuel cfg2 e2 c2 b2 r2
      (rest.1, evs ++ rest.2)

/-- The facility-index clamp of `run` (lines 595-598): an index at or
beyond the list length falls back to 0. -/
def selectIndex (facility_index : Int) (n : Nat) : Int :=
  if (n : Int) ≤ facility_index then 0 else facility_index

/-- `self.ks_token` after step 3 of `run` (lines 606-619): a truthy cached
token short-circuits the calendar fetch; otherwise `get_calendar_page`
overwrites the token exactly when it finds one on the page. -/
def ksTokenAfterStep3 (tokenBefore tokenFromPage : Option String) : Option String :=
  if pyTruthyStr tokenBefore then tokenBefore
  else
    match tokenFromPage with
    | some t => some t
    | none => tokenBefore

/-- `KBSBooker.run` from step 2 on. `loginOk` abstracts step 1 (already
logged in, or `login()` succeeded); `facilitiesResolved` abstracts the
venue-polling loop of step 2 (`none` = venue-poll timeout, `some facs` =
the list it settled on); `tokenBefore`/`tokenFromPage` abstract step 3 as
in `ksTokenAfterStep3`. Steps 4-6 are `pollLoop`. -/
def runModel (orc : Oracles) (loginOk : Bool) (facilitiesResolved : Option (List Facility))
    (tokenBefore tokenFromPage : Option String) (cfg : Config)
    (timeout interval : Rat) (fuel : Nat) : Outcome × List Event :=
  if loginOk = false then (.failure, [])
  else
    match facilitiesResolved with
    | none => (.failure, [])
    | some facilities =>
      if facilities.length = 0 then (.failure, [])
      else
        match pyGet facilities (selectIndex cfg.facility_index facilities.length) with
        | none => (.crash, [])
        | some _ =>
          if pyTruthyStr (ksTokenAfterStep3 tokenBefore tokenFromPage) then
            pollLoop orc timeout interval fuel cfg 0 0 0 0
          else (.failure, [])

/-! ## Trace measurements -/

/-- Number of availability checks in a trace. -/
def countChecks (evs : List Event) : Nat :=
  evs.countP fun e =>
    match e with
    | Event.check _ _ => true
    | _ => false

/-- Number of booking submissions in a trace. -/
def countBooks (evs : List Event) : Nat :=
  evs.countP fun e =>
    match e with
    | Event.book _ _ => true
    | _ => false

/-- Total slept time of a trace (the idealised elapsed time of the loop). -/
def sleepTotal : List Event → Rat
  | [] => 0
  | Event.sleep t :: rest => t + sleepTotal rest
  | _ :: rest => sleepTotal rest

/-- `n` consecutive unavailable checks starting at index `base`, each
followed by one sleep of `interval`. -/
def checkSleepBlock (interval : Rat) (base : Nat) : Nat → List Event
  | 0 => []
  | n + 1 =>
    Event.check base false :: Event.sleep interval :: checkSleepBlock interval (base + 1) n

/-! ## Parsing facts -/

/-- A parsed `%H:%M:%S` time has hour `≤ 23`, minute `≤ 59`, second `≤ 59`. -/
theorem parseTimeHMS_bounds {s : String} {h m sec : Nat}
    (hp : parseTimeHMS s = some (h, m, sec)) : h ≤ 23 ∧ m ≤ 59 ∧ sec ≤ 59 := by
  unfold parseTimeHMS at hp
  split at hp
  · split at hp
    · split at hp
      · rename_i hcond
        simp only [Bool.and_eq_true, decide_eq_true_eq] at hcond
        simp only [Option.some.injEq, Prod.mk.injEq] at hp
        obtain ⟨e1, e2, e3⟩ := hp
        subst e1; subst e2; subst e3
        exact ⟨hcond.1.1, hcond.1.2, hcond.2⟩
      · exact absurd hp (by simp)
    · exact absurd hp (by simp)
  · exact absurd hp (by simp)

/-- A parsed time is strictly inside one day of seconds. -/
theorem timeSeconds_lt {s : String} {t : Nat × Nat × Nat}
    (hp : parseTimeHMS s = some t) : timeSeconds t < 86400 := by
  obtain ⟨h, m, sec⟩ := t
  obtain ⟨b1, b2, b3⟩ := parseTimeHMS_bounds hp
  simp only [timeSeconds]
  omega

/-! ## C3: the price computation -/

/-- C3: the price computation of `book_slot` is a pure function of the two
time strings: for well-formed `%H:%M:%S` times with the end after the
start, the hour count is the floor of the difference divided by one hour,
the hourly rate is 10 before 19:00 and 15 from 19:00 on, and the submitted
total (absent a `total_price` override) is hours times rate. -/
theorem c3_price_is_pure_function (ts te : String) (a b : Nat × Nat × Nat)
    (hts : parseTimeHMS ts = some a) (hte : parseTimeHMS te = some b)
    (hlt : timeSeconds a < timeSeconds b) :
    bookSlotHours ts te = (timeSeconds b - timeSeconds a) / 3600
    ∧ bookSlotHourlyRate ts = (if a.1 < 19 then 10 else 15)
    ∧ bookSlotTotalPrice none ts te
        = Nat.repr (bookSlotHours ts te * bookSlotHourlyRate ts) := by
  have hbta := timeSeconds_lt hts
  have hbtb := timeSeconds_lt hte
  refine ⟨?_, ?_, ?_⟩
  · simp only [bookSlotHours, hts, hte]
    omega
  · simp only [bookSlotHourlyRate, bookSlotStartHour, hts]
  · simp only [bookSlotTotalPrice, pyOrStr, pyTruthyStr]
    simp

/-- Witness for C3 at the spec's example: 19:00:00 to 21:00:00 gives
2 hours at rate 15 for a total of "30". -/
theorem c3_price_is_pure_function_witness :
    bookSlotHours "19:00:00" "21:00:00" = (timeSeconds (21, 0, 0) - timeSeconds (19, 0, 0)) / 3600
    ∧ bookSlotHours "19:00:00" "21:00:00" = 2
    ∧ bookSlotHourlyRate "19:00:00" = 15
    ∧ bookSlotTotalPrice none "19:00:00" "21:00:00" = "30" := by
  refine ⟨(c3_price_is_pure_function "19:00:00" "21:00:00" (19, 0, 0) (21, 0, 0)
    (by decide) (by decide) (by decide)).1, by decide, by decide, by decide⟩

/-! ## C9: malformed time strings in `book_slot` -/

/-- C9: a time string that `strptime` rejects does not make `book_slot`
raise — the duration falls back to 1 hour, and when the start string
itself is the unparseable one the rate defaults to the nighttime 15, so
with no `total_price` override the submitted total is "15". -/
theorem c9_malformed_time_fallback (ts te : String)
    (h : parseTimeHMS ts = none ∨ parseTimeHMS te = none) :
    bookSlotHours ts te = 1
    ∧ (parseTimeHMS ts = none →
        bookSlotHourlyRate ts = 15 ∧ bookSlotTotalPrice none ts te = "15") := by
  have hhours : bookSlotHours ts te = 1 := by
    rcases h with h | h
    · simp only [bookSlotHours, h]
    · cases hts2 : parseTimeHMS ts <;> simp only [bookSlotHours, h, hts2]
  refine ⟨hhours, fun hn => ⟨?_, ?_⟩⟩
  · simp only [bookSlotHourlyRate, bookSlotStartHour, hn]
    decide
  · simp only [bookSlotTotalPrice, pyOrStr, pyTruthyStr, hhours]
    simp only [bookSlotHourlyRate, bookSlotStartHour, hn]
    decide

/-- Witness for C9: an unparseable start string with a well-formed end
string yields a 1-hour duration, rate 15 and total "15". -/
theorem c9_malformed_time_fallback_witness :
    bookSlotHours "bogus" "21:00:00" = 1
    ∧ bookSlotHourlyRate "bogus" = 15
    ∧ bookSlotTotalPrice none "bogus" "21:00:00" = "15" := by
  have h := c9_malformed_time_fallback "bogus" "21:00:00" (Or.inl (by decide))
  exact ⟨h.1, (h.2 (by decide)).1, (h.2 (by decide)).2⟩

/-! ## C4: day-offset resolution -/

/-- C4 counterexample: the claim says offset 0 resolves to Monday with the
slot 19:00:00-21:00:00, but `get_single_day_target`'s `time_slots` table
gives Monday 21:00:00-22:00:00. -/
theorem c4_monday_slot_counterexample :
    get_single_day_target 0 = Except.ok ("21:00:00", "22:00:00", "Monday")
    ∧ ("21:00:00", "22:00:00") ≠ ("19:00:00", "21:00:00") := by
  exact ⟨rfl, by decide⟩

/-- C4 amended: offset 0 resolves to "Monday" with slot 21:00:00-22:00:00
(not 19:00:00-21:00:00 as claimed), offset 4 to "Friday" with slot
20:00:00-22:00:00, and every offset outside `[0, 4]` fails with the
range `ValueError`. -/
theorem c4_day_offset_resolution :
    get_single_day_target 0 = Except.ok ("21:00:00", "22:00:00", "Monday")
    ∧ get_single_day_target 4 = Except.ok ("20:00:00", "22:00:00", "Friday")
    ∧ ∀ off : Int, (off < 0 ∨ 4 < off) →
        get_single_day_target off
          = Except.error ("day_offset must be 0-4, got " ++ toString off) := by
  refine ⟨rfl, rfl, fun off hoff => ?_⟩
  unfold get_single_day_target
  rw [if_pos hoff]

/-- Witness for C4 at offset 5: the range error fires. -/
theorem c4_day_offset_resolution_witness :
    get_single_day_target 5
      = Except.error ("day_offset must be 0-4, got " ++ toString (5 : Int)) :=
  c4_day_offset_resolution.2.2 5 (Or.inr (by norm_num))

/-! ## C5: availability classification -/

/-- C5 counterexample: the response text "0" is in the fixed token list,
so the claim (which reads the list as "taken" tokens) classifies it
unavailable, while `check_slot` classifies it available. -/
theorem c5_taken_tokens_counterexample :
    check_slot_available "0" = true ∧ specCheckSlotAvailable "0" = false := by
  decide

/-- C5 amended: `check_slot` classifies a response available exactly when
the stripped, lower-cased text does not contain "tiada"; the fixed token
list `["", "0", "ok", "available"]` marks available (not taken) responses
and is subsumed, since none of its members contains "tiada". -/
theorem c5_available_iff_no_tiada (respText : String) :
    check_slot_available respText
      = !(containsSub "tiada".data (pyLower (pyStrip respText)).data) := by
  unfold check_slot_available
  rcases he : pyLower (pyStrip respText) == "" with _ | _
  · rcases h0 : pyLower (pyStrip respText) == "0" with _ | _
    · rcases hk : pyLower (pyStrip respText) == "ok" with _ | _
      · rcases ha : pyLower (pyStrip respText) == "available" with _ | _
        · simp [he, h0, hk, ha]
        · rw [beq_iff_eq] at ha
          rw [ha]
          decide
      · rw [beq_iff_eq] at hk
        rw [hk]
        decide
    · rw [beq_iff_eq] at h0
      rw [h0]
      decide
  · rw [beq_iff_eq] at he
    rw [he]
    decide

/-! ## C10: facility-index clamping -/

/-- C10: with a non-empty facility list and a non-negative configured
index, the selection in `run` never goes out of range — an index at or
past the end is clamped to 0, and the resulting list access succeeds. -/
theorem c10_facility_index_clamped (facs : List Facility) (i : Int)
    (h1 : facs ≠ []) (h2 : 0 ≤ i) :
    ((facs.length : Int) ≤ i → selectIndex i facs.length = 0)
    ∧ (pyGet facs (selectIndex i facs.length)).isSome := by
  constructor
  · intro hle
    unfold selectIndex
    rw [if_pos hle]
  · by_cases hle : (facs.length : Int) ≤ i
    · unfold selectIndex
      rw [if_pos hle]
      unfold pyGet
      rw [if_pos le_rfl]
      cases facs with
      | nil => exact absurd rfl h1
      | cons x xs => simp
    · unfold selectIndex
      rw [if_neg hle]
      unfold pyGet
      rw [if_pos h2]
      have hlt : i.toNat < facs.length := by omega
      rw [List.get?_eq_get hlt]
      rfl

/-- Witness for C10: index 7 against a two-element list is clamped to 0
and the access succeeds. -/
theorem c10_facility_index_clamped_witness :
    (((([⟨"V", "E1", "07"⟩, ⟨"V", "E2", "07"⟩] : List Facility).length : Int) ≤ 7 →
        selectIndex 7 ([⟨"V", "E1", "07"⟩, ⟨"V", "E2", "07"⟩] : List Facility).length = 0)
      ∧ (pyGet ([⟨"V", "E1", "07"⟩, ⟨"V", "E2", "07"⟩] : List Facility)
          (selectIndex 7 ([⟨"V", "E1", "07"⟩, ⟨"V", "E2", "07"⟩] : List Facility).length)).isSome) :=
  c10_facility_index_clamped [⟨"V", "E1", "07"⟩, ⟨"V", "E2", "07"⟩] 7 (by decide) (by decide)

/-! ## Step lemmas for the polling loop -/

/-- Events of one loop iteration, whichever way it ended. -/
def StepResult.events : StepResult → List Event
  | .done _ evs => evs
  | .next _ _ _ _ _ evs => evs

/-- An iteration that starts past the timeout returns failure at once,
performing no check. -/
theorem pollStep_timeout {orc : Oracles} {timeout interval : Rat} {cfg : Config}
    {elapsed : Rat} {checkIdx bookIdx refetchIdx : Nat}
    (ht : timeout < elapsed) :
    pollStep orc timeout interval cfg elapsed checkIdx bookIdx refetchIdx
      = .done .failure [] := by
  unfold pollStep
  rw [if_pos ht]

/-- An iteration whose check reports unavailable sleeps one interval and
goes round. -/
theorem pollStep_unavail {orc : Oracles} {timeout interval : Rat} {cfg : Config}
    {elapsed : Rat} {checkIdx bookIdx refetchIdx : Nat}
    (ht : ¬ timeout < elapsed) (ha : orc.avail checkIdx = false) :
    pollStep orc timeout interval cfg elapsed checkIdx bookIdx refetchIdx
      = .next cfg (elapsed + interval) (checkIdx + 1) bookIdx refetchIdx
          [Event.check checkIdx false, Event.sleep interval] := by
  unfold pollStep
  rw [if_neg ht, if_neg (by rw [ha]; exact Bool.false_ne_true)]

/-- An iteration whose check reports available and whose submission
succeeds ends the run successfully with the primary court label,
whatever the confirmation does. -/
theorem pollStep_book_success {orc : Oracles} {timeout interval : Rat} {cfg : Config}
    {elapsed : Rat} {checkIdx bookIdx refetchIdx : Nat} {tsv tev dv : Nat × Nat × Nat}
    (ht : ¬ timeout < elapsed) (hav : orc.avail checkIdx = true)
    (hts : parseTimeHMS cfg.time_start = some tsv)
    (hte : parseTimeHMS cfg.time_end = some tev)
    (hd : parseDateDMY cfg.date = some dv)
    (hb : orc.bookSuccess bookIdx = true) :
    pollStep orc timeout interval cfg elapsed checkIdx bookIdx refetchIdx
      = .done (Outcome.success (primaryCourtName cfg))
          (Event.check checkIdx true ::
            ((if (2400 : Rat) < elapsed then [Event.refreshToken] else [])
              ++ Event.book cfg true :: confirmEvents orc bookIdx)) := by
  unfold pollStep
  rw [if_neg ht, if_pos hav, hts, hte, hd]
  simp only [if_pos hb]

/-- C6: with a poll timeout below the check interval (and every check
unavailable), the loop terminates after exactly one availability check,
returns the unsuccessful result, attempts no booking, and sleeps only one
interval — at most one interval past the timeout. -/
theorem c6_timeout_single_check (orc : Oracles) (timeout interval : Rat) (f : Nat)
    (cfg : Config)
    (h0 : 0 ≤ timeout) (hti : timeout < interval)
    (hun : ∀ k, orc.avail k = false) :
    pollLoop orc timeout interval (f + 2) cfg 0 0 0 0
      = (Outcome.failure, [Event.check 0 false, Event.sleep interval])
    ∧ countChecks [Event.check 0 false, Event.sleep interval] = 1
    ∧ countBooks [Event.check 0 false, Event.sleep interval] = 0
    ∧ sleepTotal [Event.check 0 false, Event.sleep interval] ≤ timeout + interval := by
  have h1 : pollStep orc timeout interval cfg 0 0 0 0
      = .next cfg (0 + interval) 1 0 0 [Event.check 0 false, Event.sleep interval] :=
    pollStep_unavail (not_lt.mpr h0) (hun 0)
  have h2 : pollStep orc timeout interval cfg (0 + interval) 1 0 0
      = .done .failure [] :=
    pollStep_timeout (by rw [zero_add]; exact hti)
  refine ⟨?_, ?_, ?_, ?_⟩
  · simp only [pollLoop, h1, h2]
    simp
  · simp [countChecks]
  · simp [countBooks]
  · simp only [sleepTotal]
    linarith

/-- Witness for C6: timeout 1/2 with interval 1, a never-available stub
and fuel 2. -/
theorem c6_timeout_single_check_witness :
    ((0 : Rat) ≤ 1 / 2 ∧ (1 / 2 : Rat) < 1)
    ∧ (pollLoop
        { avail := fun _ => false, bookSuccess := fun _ => false,
          bookingId := fun _ => none, confirmSuccess := fun _ => false,
          refetch := fun _ => [] } (1 / 2) 1 (0 + 2)
        { venue_id := "V", facility_id_encoded := "E", facility_id := 114,
          facility_index := 0, tjk_id := 624, retry_facility_index := none,
          retry_facility_id := none, retry_facility_id_num := none,
          retry_tjk_id := none, date := "01/01/2026",
          time_start := "19:00:00", time_end := "21:00:00", total_price := none }
        0 0 0 0
      = (Outcome.failure, [Event.check 0 false, Event.sleep 1])
      ∧ countChecks [Event.check 0 false, Event.sleep 1] = 1
      ∧ countBooks [Event.check 0 false, Event.sleep 1] = 0
      ∧ sleepTotal [Event.check 0 false, Event.sleep 1] ≤ 1 / 2 + 1) := by
  refine ⟨⟨by norm_num, by norm_num⟩, ?_⟩
  exact c6_timeout_single_check _ (1 / 2) 1 0 _ (by norm_num) (by norm_num)
    (fun _ => rfl)

/-- C8: once the booking submission succeeds, the run ends successfully
with the facility label no matter what the confirmation call does (the
confirmation outcome appears only in the trace, never in the result). -/
theorem c8_confirmation_cannot_change_outcome (orc : Oracles) (timeout interval : Rat)
    (fuel : Nat) (cfg : Config) (elapsed : Rat) (checkIdx bookIdx refetchIdx : Nat)
    (tsv tev dv : Nat × Nat × Nat)
    (ht : ¬ timeout < elapsed) (hav : orc.avail checkIdx = true)
    (hts : parseTimeHMS cfg.time_start = some tsv)
    (hte : parseTimeHMS cfg.time_end = some tev)
    (hd : parseDateDMY cfg.date = some dv)
    (hb : orc.bookSuccess bookIdx = true) :
    pollLoop orc timeout interval (fuel + 1) cfg elapsed checkIdx bookIdx refetchIdx
      = (Outcome.success (primaryCourtName cfg),
         Event.check checkIdx true ::
           ((if (2400 : Rat) < elapsed then [Event.refreshToken] else [])
             ++ Event.book cfg true :: confirmEvents orc bookIdx)) := by
  simp only [pollLoop, pollStep_book_success ht hav hts hte hd hb]

/-- Witness for C8: a failing confirmation (`confirmSuccess` constantly
false, booking id present) still yields the successful result. -/
theorem c8_confirmation_cannot_change_outcome_witness :
    pollLoop
      { avail := fun _ => true, bookSuccess := fun _ => true,
        bookingId := fun _ => some "123", confirmSuccess := fun _ => false,
        refetch := fun _ => [] } 10 1 (0 + 1)
      { venue_id := "V", facility_id_encoded := "E", facility_id := 114,
        facility_index := 0, tjk_id := 624, retry_facility_index := none,
        retry_facility_id := none, retry_facility_id_num := none,
        retry_tjk_id := none, date := "01/01/2026",
        time_start := "19:00:00", time_end := "21:00:00", total_price := none }
      0 0 0 0
    = (Outcome.success (primaryCourtName
        { venue_id := "V", facility_id_encoded := "E", facility_id := 114,
          facility_index := 0, tjk_id := 624, retry_facility_index := none,
          retry_facility_id := none, retry_facility_id_num := none,
          retry_tjk_id := none, date := "01/01/2026",
          time_start := "19:00:00", time_end := "21:00:00", total_price := none }),
       Event.check 0 true ::
         ((if (2400 : Rat) < (0 : Rat) then [Event.refreshToken] else [])
           ++ Event.book
               { venue_id := "V", facility_id_encoded := "E", facility_id := 114,
                 facility_index := 0, tjk_id := 624, retry_facility_index := none,
                 retry_facility_id := none, retry_facility_id_num := none,
                 retry_tjk_id := none, date := "01/01/2026",
                 time_start := "19:00:00", time_end := "21:00:00", total_price := none }
               true ::
             confirmEvents
               { avail := fun _ => true, bookSuccess := fun _ => true,
                 bookingId := fun _ => some "123", confirmSuccess := fun _ => false,
                 refetch := fun _ => [] } 0)) :=
  c8_confirmation_cannot_change_outcome _ 10 1 0 _ 0 0 0 0 (19, 0, 0) (21, 0, 0)
    (1, 1, 2026) (by norm_num) rfl (by decide) (by decide) (by decide) rfl

/-! ## The fallback (retry-facility) path -/

/-- Failed primary submission with a configured, in-range fallback whose
resubmission succeeds: the run ends with the fallback label. -/
theorem pollStep_fallback_success {orc : Oracles} {timeout interval : Rat} {cfg : Config}
    {elapsed : Rat} {checkIdx bookIdx refetchIdx : Nat} {tsv tev dv : Nat × Nat × Nat}
    {r : Int} {newFac : Facility}
    (ht : ¬ timeout < elapsed) (hav : orc.avail checkIdx = true)
    (hts : parseTimeHMS cfg.time_start = some tsv)
    (hte : parseTimeHMS cfg.time_end = some tev)
    (hd : parseDateDMY cfg.date = some dv)
    (hb1 : orc.bookSuccess bookIdx = false)
    (hretry : cfg.retry_facility_index = some r)
    (hrange : 0 ≤ r ∧ r < ((orc.refetch refetchIdx).length : Int))
    (hget : pyGet (orc.refetch refetchIdx) r = some newFac)
    (hb2 : orc.bookSuccess (bookIdx + 1) = true) :
    pollStep orc timeout interval cfg elapsed checkIdx bookIdx refetchIdx
      = .done (Outcome.success (retryCourtName r))
          (Event.check checkIdx true ::
            ((if (2400 : Rat) < elapsed then [Event.refreshToken] else [])
              ++ Event.book cfg false :: Event.sleep 1 ::
                Event.book (swapToRetry cfg newFac) true :: confirmEvents orc (bookIdx + 1))) := by
  unfold pollStep
  rw [if_neg ht, if_pos hav, hts, hte, hd]
  have hb1n : ¬ orc.bookSuccess bookIdx = true := by simp [hb1]
  simp only [hretry, hget, if_pos hrange, if_pos hb2, if_neg hb1n]

/-- Failed primary submission with a configured, in-range fallback whose
resubmission also fails: the primary identifiers are restored and the loop
goes round (one extra second slept before the resubmission). -/
theorem pollStep_fallback_failure {orc : Oracles} {timeout interval : Rat} {cfg : Config}
    {elapsed : Rat} {checkIdx bookIdx refetchIdx : Nat} {tsv tev dv : Nat × Nat × Nat}
    {r : Int} {newFac primFac : Facility}
    (ht : ¬ timeout < elapsed) (hav : orc.avail checkIdx = true)
    (hts : parseTimeHMS cfg.time_start = some tsv)
    (hte : parseTimeHMS cfg.time_end = some tev)
    (hd : parseDateDMY cfg.date = some dv)
    (hb1 : orc.bookSuccess bookIdx = false)
    (hretry : cfg.retry_facility_index = some r)
    (hrange : 0 ≤ r ∧ r < ((orc.refetch refetchIdx).length : Int))
    (hget : pyGet (orc.refetch refetchIdx) r = some newFac)
    (hb2 : orc.bookSuccess (bookIdx + 1) = false)
    (hprim : pyGet (orc.refetch refetchIdx) cfg.facility_index = some primFac) :
    pollStep orc timeout interval cfg elapsed checkIdx bookIdx refetchIdx
      = .next (restoreFromRetry cfg (swapToRetry cfg newFac) primFac)
          (elapsed + 1 + interval) (checkIdx + 1) (bookIdx + 2) (refetchIdx + 1)
          (Event.check checkIdx true ::
            ((if (2400 : Rat) < elapsed then [Event.refreshToken] else [])
              ++ Event.book cfg false :: Event.sleep 1 ::
                Event.book (swapToRetry cfg newFac) false :: [Event.sleep interval])) := by
  unfold pollStep
  rw [if_neg ht, if_pos hav, hts, hte, hd]
  have hb1n : ¬ orc.bookSuccess bookIdx = true := by simp [hb1]
  have hb2n : ¬ orc.bookSuccess (bookIdx + 1) = true := by simp [hb2]
  simp only [hretry, hget, hprim, if_pos hrange, if_neg hb1n, if_neg hb2n]

/-- C2: when the primary submission fails and a fallback facility is
configured (index present and in range of the re-fetched list, its numeric
and tjk ids set), the fallback's encoded id, numeric id and tjk id are
swapped into the config and the submission is retried exactly once; a
successful retry ends the run with the fallback facility's label, and a
failed retry restores the primary identifiers in the config (given that
the re-fetched list still carries the primary encoded id at the primary
index) and resumes polling instead of aborting. -/
theorem c2_fallback_swap_once_and_restore (orc : Oracles) (timeout interval : Rat)
    (fuel : Nat) (cfg : Config) (elapsed : Rat) (checkIdx bookIdx refetchIdx : Nat)
    (tsv tev dv : Nat × Nat × Nat) (r num tj : Int) (newFac primFac : Facility)
    (ht : ¬ timeout < elapsed)
    (hav : orc.avail checkIdx = true)
    (hts : parseTimeHMS cfg.time_start = some tsv)
    (hte : parseTimeHMS cfg.time_end = some tev)
    (hd : parseDateDMY cfg.date = some dv)
    (hb1 : orc.bookSuccess bookIdx = false)
    (hretry : cfg.retry_facility_index = some r)
    (hrange : 0 ≤ r ∧ r < ((orc.refetch refetchIdx).length : Int))
    (hget : pyGet (orc.refetch refetchIdx) r = some newFac)
    (hnum : cfg.retry_facility_id_num = some num) (hnum0 : num ≠ 0)
    (htj : cfg.retry_tjk_id = some tj) (htj0 : tj ≠ 0)
    (hprim : pyGet (orc.refetch refetchIdx) cfg.facility_index = some primFac)
    (henc : primFac.facility_id_encoded = cfg.facility_id_encoded) :
    ((swapToRetry cfg newFac).facility_id_encoded = newFac.facility_id_encoded
      ∧ (swapToRetry cfg newFac).facility_id = num
      ∧ (swapToRetry cfg newFac).tjk_id = tj)
    ∧ restoreFromRetry cfg (swapToRetry cfg newFac) primFac = cfg
    ∧ (orc.bookSuccess (bookIdx + 1) = true →
        pollLoop orc timeout interval (fuel + 1) cfg elapsed checkIdx bookIdx refetchIdx
          = (Outcome.success (retryCourtName r),
             Event.check checkIdx true ::
               ((if (2400 : Rat) < elapsed then [Event.refreshToken] else [])
                 ++ Event.book cfg false :: Event.sleep 1 ::
                   Event.book (swapToRetry cfg newFac) true ::
                     confirmEvents orc (bookIdx + 1))))
    ∧ (orc.bookSuccess (bookIdx + 1) = false →
        pollLoop orc timeout interval (fuel + 1) cfg elapsed checkIdx bookIdx refetchIdx
          = ((pollLoop orc timeout interval fuel cfg (elapsed + 1 + interval)
                (checkIdx + 1) (bookIdx + 2) (refetchIdx + 1)).1,
             Event.check checkIdx true ::
               ((if (2400 : Rat) < elapsed then [Event.refreshToken] else [])
                 ++ Event.book cfg false :: Event.sleep 1 ::
                   Event.book (swapToRetry cfg newFac) false :: Event.sleep interval ::
                     (pollLoop orc timeout interval fuel cfg (elapsed + 1 + interval)
                       (checkIdx + 1) (bookIdx + 2) (refetchIdx + 1)).2))) := by
  have hswap : (swapToRetry cfg newFac).facility_id_encoded = newFac.facility_id_encoded
      ∧ (swapToRetry cfg newFac).facility_id = num
      ∧ (swapToRetry cfg newFac).tjk_id = tj := by
    simp [swapToRetry, pyTruthyInt, hnum, htj, hnum0, htj0]
  have hrestore : restoreFromRetry cfg (swapToRetry cfg newFac) primFac = cfg := by
    cases cfg
    simp_all [restoreFromRetry, swapToRetry, pyTruthyInt]
  refine ⟨hswap, hrestore, fun hb2 => ?_, fun hb2 => ?_⟩
  · simp only [pollLoop,
      pollStep_fallback_success ht hav hts hte hd hb1 hretry hrange hget hb2]
  · simp only [pollLoop,
      pollStep_fallback_failure ht hav hts hte hd hb1 hretry hrange hget hb2 hprim,
      hrestore]
    simp

/-- Sample primary facility for the C2 witness (encoded id matching the
config's). -/
def c2FacA : Facility := ⟨"V1", "ENC_A", "07"⟩

/-- Sample fallback facility for the C2 witness. -/
def c2FacB : Facility := ⟨"V1", "ENC_B", "07"⟩

/-- Sample configuration for the C2 witness: fallback at index 1 with
numeric id 202 and tjk id 625. -/
def c2Cfg : Config :=
  { venue_id := "V1", facility_id_encoded := "ENC_A", facility_id := 114,
    facility_index := 0, tjk_id := 624, retry_facility_index := some 1,
    retry_facility_id := some "ENC_B", retry_facility_id_num := some 202,
    retry_tjk_id := some 625, date := "01/01/2026",
    time_start := "19:00:00", time_end := "21:00:00", total_price := none }

/-- Sample oracles for the C2 witness: slot available, every submission
failing, re-fetch returning the two facilities. -/
def c2Orc : Oracles :=
  { avail := fun _ => true, bookSuccess := fun _ => false,
    bookingId := fun _ => none, confirmSuccess := fun _ => true,
    refetch := fun _ => [c2FacA, c2FacB] }

/-- Witness for C2: at the sample scenario the fallback identifiers are
swapped in, the restoration yields the original config, and the loop
resumes after the failed retry. -/
theorem c2_fallback_swap_once_and_restore_witness :
    ((swapToRetry c2Cfg c2FacB).facility_id_encoded = c2FacB.facility_id_encoded
      ∧ (swapToRetry c2Cfg c2FacB).facility_id = 202
      ∧ (swapToRetry c2Cfg c2FacB).tjk_id = 625)
    ∧ restoreFromRetry c2Cfg (swapToRetry c2Cfg c2FacB) c2FacA = c2Cfg
    ∧ pollLoop c2Orc 10 1 (3 + 1) c2Cfg 0 0 0 0
        = ((pollLoop c2Orc 10 1 3 c2Cfg (0 + 1 + 1) 1 2 1).1,
           Event.check 0 true ::
             ((if (2400 : Rat) < (0 : Rat) then [Event.refreshToken] else [])
               ++ Event.book c2Cfg false :: Event.sleep 1 ::
                 Event.book (swapToRetry c2Cfg c2FacB) false :: Event.sleep 1 ::
                   (pollLoop c2Orc 10 1 3 c2Cfg (0 + 1 + 1) 1 2 1).2)) := by
  have h := c2_fallback_swap_once_and_restore c2Orc 10 1 3 c2Cfg 0 0 0 0
    (19, 0, 0) (21, 0, 0) (1, 1, 2026) 1 202 625 c2FacB c2FacA
    (by norm_num) rfl (by decide) (by decide) (by decide) rfl rfl
    (by constructor <;> decide) (by decide) rfl (by decide) rfl (by decide)
    (by decide) rfl
  exact ⟨h.1, h.2.1, h.2.2.2 rfl⟩

/-! ## Reaching the polling loop -/

/-- With a non-empty list and a non-negative configured index, the clamped
facility selection succeeds. -/
theorem pyGet_selectIndex_isSome (facs : List Facility) (i : Int)
    (h1 : facs ≠ []) (h2 : 0 ≤ i) :
    (pyGet facs (selectIndex i facs.length)).isSome := by
  by_cases hle : (facs.length : Int) ≤ i
  · unfold selectIndex
    rw [if_pos hle]
    unfold pyGet
    rw [if_pos le_rfl]
    cases facs with
    | nil => exact absurd rfl h1
    | cons x xs => simp
  · unfold selectIndex
    rw [if_neg hle]
    unfold pyGet
    rw [if_pos h2]
    have hlt : i.toNat < facs.length := by omega
    rw [List.get?_eq_get hlt]
    rfl

/-- When login worked, facilities resolved non-empty, the configured index
is non-negative and the step-3 token is truthy, `run` proceeds into the
polling loop from a fresh state. -/
theorem runModel_eq_pollLoop (orc : Oracles) (facs : List Facility)
    (tokB tokP : Option String) (cfg : Config) (timeout interval : Rat) (fuel : Nat)
    (hne : facs ≠ []) (hidx : 0 ≤ cfg.facility_index)
    (htok : pyTruthyStr (ksTokenAfterStep3 tokB tokP) = true) :
    runModel orc true (some facs) tokB tokP cfg timeout interval fuel
      = pollLoop orc timeout interval fuel cfg 0 0 0 0 := by
  have hlen : ¬ facs.length = 0 := by simpa using hne
  obtain ⟨fsel, hsel⟩ := Option.isSome_iff_exists.mp
    (pyGet_selectIndex_isSome facs cfg.facility_index hne hidx)
  simp [runModel, hlen, hsel, htok]

/-! ## C7: no submission without token and facilities -/

/-- C7: in every run, a `book_slot` submission can only appear in the
trace when facilities resolved non-empty and the step-3 session token is
non-null; and whenever facilities are missing or the token is falsy, the
run returns the unsuccessful result with an empty trace — before any
submission. (The configured facility index is assumed non-negative, as
the CLI guarantees; a pathologically negative index could instead raise an
`IndexError` at the selection line.) -/
theorem c7_submission_needs_token_and_facilities (orc : Oracles) (loginOk : Bool)
    (facilitiesResolved : Option (List Facility)) (tokenBefore tokenFromPage : Option String)
    (cfg : Config) (timeout interval : Rat) (fuel : Nat)
    (hidx : 0 ≤ cfg.facility_index) :
    (∀ c b,
        Event.book c b ∈ (runModel orc loginOk facilitiesResolved tokenBefore tokenFromPage
          cfg timeout interval fuel).2 →
        (∃ facs, facilitiesResolved = some facs ∧ facs ≠ [])
          ∧ ksTokenAfterStep3 tokenBefore tokenFromPage ≠ none)
    ∧ ((facilitiesResolved = none ∨ facilitiesResolved = some []
          ∨ pyTruthyStr (ksTokenAfterStep3 tokenBefore tokenFromPage) = false) →
        runModel orc loginOk facilitiesResolved tokenBefore tokenFromPage
          cfg timeout interval fuel = (Outcome.failure, [])) := by
  constructor
  · intro c b hmem
    by_cases hl : loginOk = false
    · simp [runModel, hl] at hmem
    · cases hfr : facilitiesResolved with
      | none => simp [runModel, hl, hfr] at hmem
      | some facs =>
        by_cases hlen : facs.length = 0
        · simp [runModel, hl, hfr, hlen] at hmem
        · have hne : facs ≠ [] := by
            intro h
            rw [h] at hlen
            exact hlen rfl
          obtain ⟨fsel, hsel⟩ := Option.isSome_iff_exists.mp
            (pyGet_selectIndex_isSome facs cfg.facility_index hne hidx)
          by_cases htok : pyTruthyStr (ksTokenAfterStep3 tokenBefore tokenFromPage) = true
          · refine ⟨⟨facs, rfl, hne⟩, fun hnone => ?_⟩
            rw [hnone] at htok
            simp [pyTruthyStr] at htok
          · simp [runModel, hl, hfr, hlen, hsel, htok] at hmem
  · intro hdisj
    by_cases hl : loginOk = false
    · simp [runModel, hl]
    · rcases hdisj with hfr | hfr | htok
      · simp [runModel, hl, hfr]
      · simp [runModel, hl, hfr]
      · cases hfr : facilitiesResolved with
        | none => simp [runModel, hl, hfr]
        | some facs =>
          by_cases hlen : facs.length = 0
          · simp [runModel, hl, hfr, hlen]
          · have hne : facs ≠ [] := by
              intro h
              rw [h] at hlen
              exact hlen rfl
            obtain ⟨fsel, hsel⟩ := Option.isSome_iff_exists.mp
              (pyGet_selectIndex_isSome facs cfg.facility_index hne hidx)
            simp [runModel, hl, hfr, hlen, hsel, htok]

/-- Witness for C7: a missing token makes the run fail with an empty
trace, and consequently no trace membership is possible. -/
theorem c7_submission_needs_token_and_facilities_witness :
    ((∀ c b,
        Event.book c b ∈ (runModel c2Orc true (some [c2FacA]) none none
          c2Cfg 10 1 5).2 →
        (∃ facs, (some [c2FacA] : Option (List Facility)) = some facs ∧ facs ≠ [])
          ∧ ksTokenAfterStep3 none none ≠ none)
      ∧ (((some [c2FacA] : Option (List Facility)) = none
            ∨ (some [c2FacA] : Option (List Facility)) = some []
            ∨ pyTruthyStr (ksTokenAfterStep3 none none) = false) →
          runModel c2Orc true (some [c2FacA]) none none c2Cfg 10 1 5
            = (Outcome.failure, []))) :=
  c7_submission_needs_token_and_facilities c2Orc true (some [c2FacA]) none none
    c2Cfg 10 1 5 (by decide)

/-! ## C1: the shape of the polling prefix -/

/-- Unfolding the loop on a `done` iteration. -/
theorem pollLoop_done {orc : Oracles} {timeout interval : Rat} {fuel : Nat}
    {cfg : Config} {elapsed : Rat} {checkIdx bookIdx refetchIdx : Nat}
    {out : Outcome} {evs : List Event}
    (hstep : pollStep orc timeout interval cfg elapsed checkIdx bookIdx refetchIdx
      = .done out evs) :
    pollLoop orc timeout interval (fuel + 1) cfg elapsed checkIdx bookIdx refetchIdx
      = (out, evs) := by
  simp [pollLoop, hstep]

/-- Unfolding the loop on a `next` iteration. -/
theorem pollLoop_next {orc : Oracles} {timeout interval : Rat} {fuel : Nat}
    {cfg : Config} {elapsed : Rat} {checkIdx bookIdx refetchIdx : Nat}
    {c2 : Config} {e2 : Rat} {ci bi ri : Nat} {evs : List Event}
    (hstep : pollStep orc timeout interval cfg elapsed checkIdx bookIdx refetchIdx
      = .next c2 e2 ci bi ri evs) :
    pollLoop orc timeout interval (fuel + 1) cfg elapsed checkIdx bookIdx refetchIdx
      = ((pollLoop orc timeout interval fuel c2 e2 ci bi ri).1,
         evs ++ (pollLoop orc timeout interval fuel c2 e2 ci bi ri).2) := by
  simp [pollLoop, hstep]

/-- The trace of a loop with fuel left starts with the events of its first
iteration. -/
theorem pollLoop_events_head (orc : Oracles) (timeout interval : Rat) (fuel : Nat)
    (cfg : Config) (elapsed : Rat) (checkIdx bookIdx refetchIdx : Nat) :
    ∃ extra,
      (pollLoop orc timeout interval (fuel + 1) cfg elapsed checkIdx bookIdx refetchIdx).2
        = (pollStep orc timeout interval cfg elapsed checkIdx bookIdx refetchIdx).events
          ++ extra := by
  cases hstep : pollStep orc timeout interval cfg elapsed checkIdx bookIdx refetchIdx with
  | done out evs => exact ⟨[], by simp [pollLoop_done hstep, hstep, StepResult.events]⟩
  | next c2 e2 ci bi ri evs =>
    exact ⟨(pollLoop orc timeout interval fuel c2 e2 ci bi ri).2,
      by simp [pollLoop_next hstep, hstep, StepResult.events]⟩

/-- Whatever the submission and fallback oracles do, an iteration whose
check reports available (with parseable config times and date) emits the
check, the conditional token refresh, and then immediately the booking
submission. -/
theorem pollStep_avail_events (orc : Oracles) (timeout interval : Rat) (cfg : Config)
    (elapsed : Rat) (checkIdx bookIdx refetchIdx : Nat) (tsv tev dv : Nat × Nat × Nat)
    (ht : ¬ timeout < elapsed) (hav : orc.avail checkIdx = true)
    (hts : parseTimeHMS cfg.time_start = some tsv)
    (hte : parseTimeHMS cfg.time_end = some tev)
    (hd : parseDateDMY cfg.date = some dv) :
    ∃ tail,
      (pollStep orc timeout interval cfg elapsed checkIdx bookIdx refetchIdx).events
        = Event.check checkIdx true ::
            ((if (2400 : Rat) < elapsed then [Event.refreshToken] else [])
              ++ Event.book cfg (orc.bookSuccess bookIdx) :: tail) := by
  unfold pollStep
  rw [if_neg ht, if_pos hav, hts, hte, hd]
  by_cases hb : orc.bookSuccess bookIdx = true
  · refine ⟨confirmEvents orc bookIdx, ?_⟩
    rw [hb]
    simp [StepResult.events]
  · have hb' : orc.bookSuccess bookIdx = false := by simpa using hb
    rw [hb']
    simp only [if_neg (by simp : ¬ (false = true))]
    cases hr : cfg.retry_facility_index with
    | none => exact ⟨[Event.sleep interval], rfl⟩
    | some r =>
      by_cases hrange : 0 ≤ r ∧ r < ((orc.refetch refetchIdx).length : Int)
      · simp only [if_pos hrange]
        cases hget : pyGet (orc.refetch refetchIdx) r with
        | none => exact ⟨[], rfl⟩
        | some newFac =>
          by_cases hb2 : orc.bookSuccess (bookIdx + 1) = true
          · simp only [if_pos hb2]
            exact ⟨Event.sleep 1 :: Event.book (swapToRetry cfg newFac) true ::
              confirmEvents orc (bookIdx + 1), rfl⟩
          · simp only [if_neg hb2]
            cases hprim : pyGet (orc.refetch refetchIdx) cfg.facility_index with
            | none =>
              exact ⟨Event.sleep 1 :: [Event.book (swapToRetry cfg newFac) false], rfl⟩
            | some primFac =>
              exact ⟨Event.sleep 1 :: Event.book (swapToRetry cfg newFac) false ::
                [Event.sleep interval], rfl⟩
      · simp only [if_neg hrange]
        exact ⟨[Event.sleep interval], rfl⟩

/-- Combining the two: an available check with fuel left puts
check-refresh-book at the front of the remaining trace. -/
theorem pollLoop_avail_head (orc : Oracles) (timeout interval : Rat) (fuel : Nat)
    (cfg : Config) (elapsed : Rat) (checkIdx bookIdx refetchIdx : Nat)
    (tsv tev dv : Nat × Nat × Nat)
    (ht : ¬ timeout < elapsed) (hav : orc.avail checkIdx = true)
    (hts : parseTimeHMS cfg.time_start = some tsv)
    (hte : parseTimeHMS cfg.time_end = some tev)
    (hd : parseDateDMY cfg.date = some dv) :
    ∃ rest,
      (pollLoop orc timeout interval (fuel + 1) cfg elapsed checkIdx bookIdx refetchIdx).2
        = Event.check checkIdx true ::
            ((if (2400 : Rat) < elapsed then [Event.refreshToken] else [])
              ++ Event.book cfg (orc.bookSuccess bookIdx) :: rest) := by
  obtain ⟨extra, hextra⟩ :=
    pollLoop_events_head orc timeout interval fuel cfg elapsed checkIdx bookIdx refetchIdx
  obtain ⟨tail, htail⟩ :=
    pollStep_avail_events orc timeout interval cfg elapsed checkIdx bookIdx refetchIdx
      tsv tev dv ht hav hts hte hd
  refine ⟨tail ++ extra, ?_⟩
  rw [hextra, htail]
  simp [List.append_assoc]

/-- A block of `n` unavailable checks holds exactly `n` checks. -/
theorem countChecks_checkSleepBlock (interval : Rat) :
    ∀ (n base : Nat), countChecks (checkSleepBlock interval base n) = n := by
  intro n
  induction n with
  | zero => intro base; rfl
  | succ n ih =>
    intro base
    simp only [checkSleepBlock, countChecks, List.countP_cons]
    have := ih (base + 1)
    simp only [countChecks] at this
    simp [this]

/-- A block of unavailable checks holds no booking submission. -/
theorem countBooks_checkSleepBlock (interval : Rat) :
    ∀ (n base : Nat), countBooks (checkSleepBlock interval base n) = 0 := by
  intro n
  induction n with
  | zero => intro base; rfl
  | succ n ih =>
    intro base
    simp only [checkSleepBlock, countBooks, List.countP_cons]
    have := ih (base + 1)
    simp only [countBooks] at this
    simp [this]

/-- The polling loop under a stub that is unavailable `N` times and then
available, when the timeout allows all `N + 1` checks: the trace is the
block of `N` unavailable checks each followed by one interval sleep, then
the available check, the conditional refresh, and the booking submission. -/
theorem pollLoop_block_spec (orc : Oracles) (timeout interval : Rat)
    (tsv tev dv : Nat × Nat × Nat) (hint : 0 ≤ interval) :
    ∀ (N fuel : Nat) (cfg : Config) (elapsed : Rat) (checkIdx bookIdx refetchIdx : Nat),
      (∀ k, k < N → orc.avail (checkIdx + k) = false) →
      orc.avail (checkIdx + N) = true →
      elapsed + (N : Rat) * interval ≤ timeout →
      parseTimeHMS cfg.time_start = some tsv →
      parseTimeHMS cfg.time_end = some tev →
      parseDateDMY cfg.date = some dv →
      ∃ rest,
        (pollLoop orc timeout interval (fuel + (N + 1)) cfg elapsed checkIdx bookIdx
          refetchIdx).2
          = checkSleepBlock interval checkIdx N
            ++ Event.check (checkIdx + N) true
            :: ((if (2400 : Rat) < elapsed + (N : Rat) * interval
                  then [Event.refreshToken] else [])
                ++ Event.book cfg (orc.bookSuccess bookIdx) :: rest) := by
  intro N
  induction N with
  | zero =>
    intro fuel cfg elapsed checkIdx bookIdx refetchIdx hun hav htime hts hte hd
    have hel : elapsed + ((0 : Nat) : Rat) * interval = elapsed := by
      push_cast
      ring
    rw [hel] at htime
    have ht : ¬ timeout < elapsed := not_lt.mpr htime
    obtain ⟨rest, hrest⟩ :=
      pollLoop_avail_head orc timeout interval fuel cfg elapsed checkIdx bookIdx refetchIdx
        tsv tev dv ht (by simpa using hav) hts hte hd
    refine ⟨rest, ?_⟩
    rw [hrest]
    simp only [checkSleepBlock, Nat.add_zero, hel, List.nil_append]
  | succ N ih =>
    intro fuel cfg elapsed checkIdx bookIdx refetchIdx hun hav htime hts hte hd
    have ha0 : orc.avail checkIdx = false := by
      have := hun 0 (Nat.succ_pos N)
      simpa using this
    have hmul : (0 : Rat) ≤ ((N + 1 : Nat) : Rat) * interval := by
      apply mul_nonneg _ hint
      positivity
    have ht : ¬ timeout < elapsed := by
      push_cast at htime hmul
      linarith
    have hstep : pollStep orc timeout interval cfg elapsed checkIdx bookIdx refetchIdx
        = .next cfg (elapsed + interval) (checkIdx + 1) bookIdx refetchIdx
            [Event.check checkIdx false, Event.sleep interval] :=
      pollStep_unavail ht ha0
    have hidx2 : checkIdx + 1 + N = checkIdx + (N + 1) := by omega
    have hel2 : elapsed + interval + (N : Rat) * interval
        = elapsed + ((N + 1 : Nat) : Rat) * interval := by
      push_cast
      ring
    obtain ⟨rest, hrest⟩ := ih fuel cfg (elapsed + interval) (checkIdx + 1) bookIdx refetchIdx
      (fun k hk => by
        have := hun (k + 1) (by omega)
        have harr : checkIdx + 1 + k = checkIdx + (k + 1) := by omega
        rw [harr]
        exact this)
      (by rw [hidx2]; exact hav)
      (by rw [hel2]; exact htime)
      hts hte hd
    refine ⟨rest, ?_⟩
    have hfuel : fuel + (N + 1 + 1) = (fuel + (N + 1)) + 1 := by omega
    rw [hfuel, pollLoop_next hstep]
    simp only []
    rw [hrest]
    simp only [checkSleepBlock, hidx2, hel2]
    simp

/-- C1: given an availability stub that is unavailable `N` times and then
available, a timeout that has not elapsed by the `N + 1`-th check, and a
run that reaches the polling loop, the run performs exactly `N + 1`
availability checks with one sleep of the configured interval between
each consecutive pair, and only then (after at most a token refresh)
invokes the booking submission. -/
theorem c1_exactly_n_plus_one_checks_then_submit (orc : Oracles) (facs : List Facility)
    (tokB tokP : Option String) (cfg : Config) (timeout interval : Rat) (f N : Nat)
    (tsv tev dv : Nat × Nat × Nat)
    (hne : facs ≠ [])
    (hidx : 0 ≤ cfg.facility_index)
    (htok : pyTruthyStr (ksTokenAfterStep3 tokB tokP) = true)
    (hun : ∀ k, k < N → orc.avail k = false)
    (hav : orc.avail N = true)
    (hts : parseTimeHMS cfg.time_start = some tsv)
    (hte : parseTimeHMS cfg.time_end = some tev)
    (hd : parseDateDMY cfg.date = some dv)
    (hint : 0 ≤ interval)
    (htime : (N : Rat) * interval ≤ timeout) :
    (∃ rest,
      (runModel orc true (some facs) tokB tokP cfg timeout interval (f + (N + 1))).2
        = checkSleepBlock interval 0 N
          ++ Event.check N true
          :: ((if (2400 : Rat) < (N : Rat) * interval then [Event.refreshToken] else [])
              ++ Event.book cfg (orc.bookSuccess 0) :: rest))
    ∧ countChecks (checkSleepBlock interval 0 N ++ [Event.check N true]) = N + 1
    ∧ countBooks (checkSleepBlock interval 0 N ++ [Event.check N true]) = 0 := by
  refine ⟨?_, ?_, ?_⟩
  · rw [runModel_eq_pollLoop orc facs tokB tokP cfg timeout interval (f + (N + 1))
      hne hidx htok]
    obtain ⟨rest, hrest⟩ := pollLoop_block_spec orc timeout interval tsv tev dv hint
      N f cfg 0 0 0 0
      (fun k hk => by simpa using hun k hk)
      (by simpa using hav)
      (by rw [zero_add]; exact htime)
      hts hte hd
    rw [zero_add] at hrest
    exact ⟨rest, by simpa using hrest⟩
  · have h1 := countChecks_checkSleepBlock interval N 0
    simp only [countChecks] at h1 ⊢
    rw [List.countP_append]
    simp [h1]
  · have h1 := countBooks_checkSleepBlock interval N 0
    simp only [countBooks] at h1 ⊢
    rw [List.countP_append]
    simp [h1]

/-- Oracles for the C1 witness: unavailable once, then available; every
submission succeeds. -/
def c1Orc : Oracles :=
  { avail := fun k => decide (1 ≤ k), bookSuccess := fun _ => true,
    bookingId := fun _ => some "77", confirmSuccess := fun _ => true,
    refetch := fun _ => [] }

/-- Witness for C1 at `N = 1`: two checks with one interval sleep between
them, then the submission. -/
theorem c1_exactly_n_plus_one_checks_then_submit_witness :
    (∃ rest,
      (runModel c1Orc true (some [c2FacA, c2FacB]) (some "deadbeef") none c2Cfg
        10 1 (0 + (1 + 1))).2
        = checkSleepBlock 1 0 1
          ++ Event.check 1 true
          :: ((if (2400 : Rat) < ((1 : Nat) : Rat) * 1 then [Event.refreshToken] else [])
              ++ Event.book c2Cfg (c1Orc.bookSuccess 0) :: rest))
    ∧ countChecks (checkSleepBlock 1 0 1 ++ [Event.check 1 true]) = 1 + 1
    ∧ countBooks (checkSleepBlock 1 0 1 ++ [Event.check 1 true]) = 0 :=
  c1_exactly_n_plus_one_checks_then_submit c1Orc [c2FacA, c2FacB] (some "deadbeef") none
    c2Cfg 10 1 0 1 (19, 0, 0) (21, 0, 0) (1, 1, 2026)
    (by decide) (by decide) (by decide)
    (fun k hk => by
      have hk0 : k = 0 := by omega
      rw [hk0]
      rfl)
    rfl (by decide) (by decide) (by decide) (by norm_num) (by norm_num)

end KBS
